import Mathlib

/-!
Shallow embedding of the horn digital-twin synchronizer from
`integrated_car_controller.py`.

The embedded pieces are the `CarDigitalTwin` JSON store operations
(`get_horn_status`, `set_horn_status`, `save_digital_twin`) and the
`IntegratedCarController` synchronization operations (`send_command`,
one iteration of the `auto_sync_worker` loop body, `sync_dt_to_hardware`
and `activate_horn_dt_only`).

JSON documents are modelled by `PyVal` (a tree, as produced by
`json.load`).  The Python exceptions that matter for control flow are
`KeyError` (dict indexing with a missing key; the only exception caught
by `get_horn_status`) and `TypeError`-like failures (indexing or adding
a value of the wrong shape; only caught by the broad `except Exception`
handlers of `set_horn_status` and `save_digital_twin`).  Fallible steps
are modelled with `Except PyErr`.
-/

inductive PyErr where
  | keyError
  | typeError
deriving DecidableEq

inductive PyVal where
  | str : String → PyVal
  | int : Int → PyVal
  | bool : Bool → PyVal
  | arr : List PyVal → PyVal
  | dict : List (String × PyVal) → PyVal
  | none : PyVal

/-- Lookup in a Python dict (modelled as an ordered association list with
distinct keys, as `json.load` produces). -/
def lookup : List (String × PyVal) → String → Option PyVal
  | [], _ => Option.none
  | (k, v) :: rest, key => if k = key then some v else lookup rest key

/-- Python dict assignment `d[key] = v`: replace in place if the key is
present, append otherwise. -/
def insertKV : List (String × PyVal) → String → PyVal → List (String × PyVal)
  | [], key, v => [(key, v)]
  | (k, w) :: rest, key, v =>
      if k = key then (k, v) :: rest else (k, w) :: insertKV rest key v

/-- Python `x[key]` for a string key: `KeyError` on a dict without the key,
`TypeError` on any non-dict value. -/
def getItem : PyVal → String → Except PyErr PyVal
  | .dict l, key =>
      match lookup l key with
      | some v => .ok v
      | Option.none => .error .keyError
  | _, _ => .error .typeError

/-- Python `x[key] = v`. -/
def setItem : PyVal → String → PyVal → Except PyErr PyVal
  | .dict l, key, v => .ok (.dict (insertKV l key v))
  | _, _, _ => .error .typeError

/-- Python `x.get(key, default)`; calling `.get` on a non-dict raises. -/
def dictGet : PyVal → String → PyVal → Except PyErr PyVal
  | .dict l, key, dflt => .ok ((lookup l key).getD dflt)
  | _, _, _ => .error .typeError

/-- Python `a + b` as used on the numeric counters of the twin document. -/
def pyAdd : PyVal → PyVal → Except PyErr PyVal
  | .int a, .int b => .ok (.int (a + b))
  | .bool a, .int b => .ok (.int ((if a then 1 else 0) + b))
  | _, _ => .error .typeError

/-- Chained Python indexing `doc[k1][k2]...`. -/
def getPath : PyVal → List String → Except PyErr PyVal
  | doc, [] => .ok doc
  | doc, p :: ps =>
    match getItem doc p with
    | .error e => .error e
    | .ok sub => getPath sub ps

/-- Python assignment through a chain of indexings,
`doc[p1][p2]...[key] = v`.  Because `json.load` documents are trees, the
in-place mutation of the aliased sub-dict is the same as rebuilding the
document along the path. -/
def setAtPath : PyVal → List String → String → PyVal → Except PyErr PyVal
  | doc, [], key, v => setItem doc key v
  | doc, p :: ps, key, v =>
    match getItem doc p with
    | .error e => .error e
    | .ok sub =>
      match setAtPath sub ps key v with
      | .error e => .error e
      | .ok sub2 => setItem doc p sub2

/-- Navigation stops at a dict that is missing the next key: exactly the
situations in which chained indexing raises `KeyError`. -/
def missingOn : PyVal → List String → Bool
  | .dict l, k :: ks =>
    match lookup l k with
    | Option.none => true
    | some v => missingOn v ks
  | _, _ => false

/-! ## CarDigitalTwin -/

def statusPathKeys : List String := ["features", "horn", "properties", "status"]

/-- `CarDigitalTwin.get_horn_status`: returns
`data["features"]["horn"]["properties"]["status"]["state"]`, catching
only `KeyError` (mapped to `"UNKNOWN"`); any other exception propagates
to the caller. -/
def get_horn_status (doc : PyVal) : Except PyErr PyVal :=
  match getPath doc (statusPathKeys ++ ["state"]) with
  | .ok v => .ok v
  | .error .keyError => .ok (.str "UNKNOWN")
  | .error .typeError => .error .typeError

/-- `CarDigitalTwin.save_digital_twin`: updates
`data["_metadata"]["modified"]`, bumps `data["_metadata"]["_revision"]`
(default 1) by one, copies the new timestamp to
`data["attributes"]["metadata"]["lastModified"]`, then writes the file.
Exceptions are caught and turn into a `False` return, leaving whatever
mutations already happened in place.  The file write itself is modelled
as succeeding, since the in-memory document is the state every claim
reads back. -/
def save_digital_twin (doc : PyVal) (nowM : String) : PyVal × Bool :=
  match setAtPath doc ["_metadata"] "modified" (.str nowM) with
  | .error _ => (doc, false)
  | .ok d1 =>
    match getItem d1 "_metadata" with
    | .error _ => (d1, false)
    | .ok md =>
      match dictGet md "_revision" (.int 1) with
      | .error _ => (d1, false)
      | .ok rv =>
        match pyAdd rv (.int 1) with
        | .error _ => (d1, false)
        | .ok rv2 =>
          match setAtPath d1 ["_metadata"] "_revision" rv2 with
          | .error _ => (d1, false)
          | .ok d2 =>
            match getItem d2 "_metadata" with
            | .error _ => (d2, false)
            | .ok md2 =>
              match getItem md2 "modified" with
              | .error _ => (d2, false)
              | .ok mv =>
                match setAtPath d2 ["attributes", "metadata"] "lastModified" mv with
                | .error _ => (d2, false)
                | .ok d3 => (d3, true)

/-- `CarDigitalTwin.set_horn_status`: fetches the status sub-dict, sets
`state`, and when the requested status is `"ON"` also sets
`lastActivated` and increments `activationCount` (default 0); finally
calls `save_digital_twin`.  Any exception is caught and turns into a
`False` return, leaving the mutations made so far in place. -/
def set_horn_status (doc : PyVal) (status : String) (nowA nowM : String) : PyVal × Bool :=
  match getPath doc statusPathKeys with
  | .error _ => (doc, false)
  | .ok _ =>
    match setAtPath doc statusPathKeys "state" (.str status) with
    | .error _ => (doc, false)
    | .ok d1 =>
      if status = "ON" then
        match setAtPath d1 statusPathKeys "lastActivated" (.str nowA) with
        | .error _ => (d1, false)
        | .ok d2 =>
          match getPath d2 statusPathKeys with
          | .error _ => (d2, false)
          | .ok hp =>
            match dictGet hp "activationCount" (.int 0) with
            | .error _ => (d2, false)
            | .ok cv =>
              match pyAdd cv (.int 1) with
              | .error _ => (d2, false)
              | .ok cv2 =>
                match setAtPath d2 statusPathKeys "activationCount" cv2 with
                | .error _ => (d2, false)
                | .ok d3 => save_digital_twin d3 nowM
      else save_digital_twin d1 nowM

/-! ### Read-only views of a twin document, used to state properties. -/

/-- A field of the horn status sub-dict, if the document has one. -/
def statusField (doc : PyVal) (k : String) : Option PyVal :=
  match getPath doc statusPathKeys with
  | .ok (.dict l) => lookup l k
  | _ => Option.none

/-- The activation counter read the way `get_horn_statistics` reads it:
`status.get("activationCount", 0)`. -/
def countView (doc : PyVal) : Option PyVal :=
  match getPath doc statusPathKeys with
  | .ok (.dict l) => some ((lookup l "activationCount").getD (.int 0))
  | _ => Option.none

/-- The `_metadata.modified` timestamp. -/
def modifiedView (doc : PyVal) : Option PyVal :=
  match getItem doc "_metadata" with
  | .ok (.dict l) => lookup l "modified"
  | _ => Option.none

/-- The `_metadata._revision` marker, with the default the code uses. -/
def revisionView (doc : PyVal) : Option PyVal :=
  match getItem doc "_metadata" with
  | .ok (.dict l) => some ((lookup l "_revision").getD (.int 1))
  | _ => Option.none

/-- The `attributes.metadata.lastModified` mirror timestamp. -/
def attrLastModifiedView (doc : PyVal) : Option PyVal :=
  match getPath doc ["attributes", "metadata"] with
  | .ok (.dict l) => lookup l "lastModified"
  | _ => Option.none

/-! ## IntegratedCarController synchronizer state and operations -/

/-- Python `==` between a fetched document value and a string literal. -/
def PyVal.eqStr : PyVal → String → Bool
  | .str a, b => a == b
  | _, _ => false

/-- Renders the tracked boolean the way the controller does:
`"ON" if hardware_horn_state else "OFF"`. -/
def hwStr (b : Bool) : String := if b then "ON" else "OFF"

/-- The controller state touched by the synchronizer: the in-memory twin
document (`digital_twin.data`), the `connected` flag, the tracked
`hardware_horn_state`, and the trace of command bytes pushed to the
serial channel (`sent`), recorded in order. -/
structure Ctrl where
  twin : PyVal
  connected : Bool
  hardware_horn_state : Bool
  sent : List Char

/-- `send_command`: returns `False` without touching the channel when not
connected; otherwise writes exactly one byte and reports the channel
outcome.  `env n` is the success of the n-th physical write. -/
def send_command (env : Nat → Bool) (c : Ctrl) (cmd : Char) : Ctrl × Bool :=
  if c.connected then
    ({ c with sent := c.sent ++ [cmd] }, env c.sent.length)
  else (c, false)

/-- One iteration of the `auto_sync_worker` loop body (one auto-sync
tick): compare the twin state with the rendered hardware state; when
they differ push the twin state to hardware, ignoring the result of
`send_command`, and record the pushed value as observed.  `Option.none`
models the `except` clause breaking the loop. -/
def auto_sync_tick (env : Nat → Bool) (c : Ctrl) : Option Ctrl :=
  match get_horn_status c.twin with
  | .error _ => Option.none
  | .ok dtVal =>
    if dtVal.eqStr (hwStr c.hardware_horn_state) then some c
    else if dtVal.eqStr "ON" then
      some { (send_command env c '1').1 with hardware_horn_state := true }
    else
      some { (send_command env c '0').1 with hardware_horn_state := false }

/-- `n` consecutive auto-sync ticks. -/
def auto_sync_ticks (env : Nat → Bool) : Nat → Ctrl → Option Ctrl
  | 0, c => some c
  | n + 1, c =>
    match auto_sync_tick env c with
    | some c2 => auto_sync_ticks env n c2
    | Option.none => Option.none

/-- `sync_dt_to_hardware` (the manual Sync DT to Hardware action): when
connected, unconditionally push the twin state to hardware; the tracked
state is updated only when the send succeeds.  An uncaught exception
from `get_horn_status` propagates. -/
def sync_dt_to_hardware (env : Nat → Bool) (c : Ctrl) : Except PyErr Ctrl :=
  if c.connected then
    match get_horn_status c.twin with
    | .error e => .error e
    | .ok dtVal =>
      if dtVal.eqStr "ON" then
        let p := send_command env c '1'
        .ok (if p.2 then { p.1 with hardware_horn_state := true } else p.1)
      else
        let p := send_command env c '0'
        .ok (if p.2 then { p.1 with hardware_horn_state := false } else p.1)
  else .ok c

/-- `activate_horn_dt_only`: write the twin first; if that succeeded and
the hardware is connected, push `'1'`; the tracked hardware state is
updated only when the send succeeds.  The second component is the value
the Python function returns to its caller (always `None`). -/
def activate_horn_dt_only (env : Nat → Bool) (nowA nowM : String) (c : Ctrl) :
    Ctrl × PyVal :=
  let r := set_horn_status c.twin "ON" nowA nowM
  let c1 : Ctrl := { c with twin := r.1 }
  if r.2 then
    if c1.connected then
      let p := send_command env c1 '1'
      if p.2 then ({ p.1 with hardware_horn_state := true }, PyVal.none)
      else (p.1, PyVal.none)
    else (c1, PyVal.none)
  else (c1, PyVal.none)

/-! ## Concrete documents and controller states used as test inputs -/

/-- A well-formed horn status sub-dict. -/
def statusGood (st : String) (cnt : Int) : List (String × PyVal) :=
  [("state", .str st), ("activationCount", .int cnt), ("lastActivated", .str "t1")]

/-- A well-formed twin document with the given horn state and counter. -/
def goodDocWith (st : String) (cnt : Int) : PyVal :=
  .dict
    [("thingId", .str "smartcar:vehicles:car-001"),
     ("_metadata", .dict [("modified", .str "t0"), ("_revision", .int 3)]),
     ("attributes", .dict
       [("metadata", .dict
         [("manufacturer", .str "SmartCar"), ("lastModified", .str "t0")])]),
     ("features", .dict
       [("horn", .dict
         [("properties", .dict
           [("status", .dict (statusGood st cnt))])])])]

def goodDocOFF : PyVal := goodDocWith "OFF" 5

def goodDocON : PyVal := goodDocWith "ON" 5

/-- A document whose horn status is intact but whose `_metadata` record is
missing, so that `save_digital_twin` fails. -/
def noMetaDoc : PyVal :=
  .dict
    [("thingId", .str "smartcar:vehicles:car-001"),
     ("attributes", .dict
       [("metadata", .dict [("lastModified", .str "t0")])]),
     ("features", .dict
       [("horn", .dict
         [("properties", .dict
           [("status", .dict (statusGood "OFF" 5))])])])]

/-- A document whose `features` entry has the wrong shape (a string). -/
def badShapeDoc : PyVal := .dict [("features", .str "oops")]

/-- A document with no fields at all. -/
def emptyDoc : PyVal := .dict []

def envOK : Nat → Bool := fun _ => true

def envFail : Nat → Bool := fun _ => false

/-- Connected, twin OFF, hardware observed OFF: already synchronized. -/
def cSync : Ctrl :=
  { twin := goodDocOFF, connected := true, hardware_horn_state := false, sent := [] }

/-- Connected, twin OFF, hardware observed ON: mismatched. -/
def cMis : Ctrl :=
  { twin := goodDocOFF, connected := true, hardware_horn_state := true, sent := [] }

/-- Connected, twin ON, hardware observed OFF: the C1 scenario. -/
def cStale : Ctrl :=
  { twin := goodDocON, connected := true, hardware_horn_state := false, sent := [] }

/-- The state `cStale` reaches after one successful auto-sync tick. -/
def cStaleAfter : Ctrl :=
  { twin := goodDocON, connected := true, hardware_horn_state := true, sent := ['1'] }

/-- Connected controller whose twin document is empty, so the twin state
reads as UNKNOWN. -/
def cUnk : Ctrl :=
  { twin := emptyDoc, connected := true, hardware_horn_state := false, sent := [] }

/-- The state `cUnk` reaches after one auto-sync tick. -/
def cUnkAfter : Ctrl :=
  { twin := emptyDoc, connected := true, hardware_horn_state := false, sent := ['0'] }

/-! ## Lemmas about the document model -/

theorem lookup_insertKV_self (l : List (String × PyVal)) (k : String) (v : PyVal) :
    lookup (insertKV l k v) k = some v := by
  induction l with
  | nil => simp [insertKV, lookup]
  | cons h t ih =>
    obtain ⟨k0, w⟩ := h
    by_cases hk : k0 = k
    · simp [insertKV, hk, lookup]
    · simp [insertKV, hk, lookup, ih]

theorem lookup_insertKV_ne (l : List (String × PyVal)) (k q : String) (v : PyVal)
    (hq : q ≠ k) : lookup (insertKV l k v) q = lookup l q := by
  have hkq : ¬ k = q := fun h => hq h.symm
  induction l with
  | nil => simp [insertKV, lookup, hkq]
  | cons h t ih =>
    obtain ⟨k0, w⟩ := h
    by_cases hk : k0 = k
    · subst hk
      simp [insertKV, lookup, hkq]
    · simp [insertKV, hk, lookup, ih]

theorem getItem_inv {doc : PyVal} {p : String} {sub : PyVal}
    (h : getItem doc p = .ok sub) :
    ∃ m, doc = .dict m ∧ lookup m p = some sub := by
  cases doc with
  | dict m =>
    refine ⟨m, rfl, ?_⟩
    unfold getItem at h
    cases hl : lookup m p with
    | none => simp [hl] at h
    | some v =>
      simp [hl] at h
      rw [h]
  | str s => exact Except.noConfusion h
  | int i => exact Except.noConfusion h
  | bool b => exact Except.noConfusion h
  | arr a => exact Except.noConfusion h
  | none => exact Except.noConfusion h

theorem setItem_inv {doc d2 : PyVal} {k : String} {v : PyVal}
    (h : setItem doc k v = .ok d2) :
    ∃ m, doc = .dict m ∧ d2 = .dict (insertKV m k v) := by
  cases doc with
  | dict m =>
    refine ⟨m, rfl, ?_⟩
    unfold setItem at h
    cases h
    rfl
  | str s => exact Except.noConfusion h
  | int i => exact Except.noConfusion h
  | bool b => exact Except.noConfusion h
  | arr a => exact Except.noConfusion h
  | none => exact Except.noConfusion h

theorem getPath_singleton (doc : PyVal) (q : String) :
    getPath doc [q] = getItem doc q := by
  unfold getPath
  cases h : getItem doc q <;> simp [getPath]

theorem getPath_cons_congr {a b : PyVal} {q : String} (qs : List String)
    (h : getItem a q = getItem b q) : getPath a (q :: qs) = getPath b (q :: qs) := by
  unfold getPath
  rw [h]

/-- Updating along a path succeeds exactly below a dict, and afterwards the
path reads back as that dict with the key replaced. -/
theorem setAtPath_ok {doc d2 : PyVal} {path : List String} {k : String} {v : PyVal}
    (h : setAtPath doc path k v = .ok d2) :
    ∃ l, getPath doc path = .ok (.dict l) ∧
      getPath d2 path = .ok (.dict (insertKV l k v)) := by
  induction path generalizing doc d2 with
  | nil =>
    obtain ⟨m, rfl, rfl⟩ := setItem_inv h
    exact ⟨m, by simp [getPath], by simp [getPath]⟩
  | cons p ps ih =>
    unfold setAtPath at h
    split at h
    · exact Except.noConfusion h
    next sub hg =>
      split at h
      · exact Except.noConfusion h
      next sub2 hs =>
        obtain ⟨l, hl1, hl2⟩ := ih hs
        obtain ⟨m, rfl, hm⟩ := getItem_inv hg
        obtain ⟨m2, hm2, rfl⟩ := setItem_inv h
        cases hm2
        refine ⟨l, ?_, ?_⟩
        · simp only [getPath, getItem, hm]
          exact hl1
        · simp only [getPath, getItem, lookup_insertKV_self]
          exact hl2

/-- Updating along a path that currently reads back as a dict succeeds. -/
theorem setAtPath_of_getPath {doc : PyVal} {path : List String}
    {l : List (String × PyVal)} (k : String) (v : PyVal)
    (h : getPath doc path = .ok (.dict l)) :
    ∃ d2, setAtPath doc path k v = .ok d2 ∧
      getPath d2 path = .ok (.dict (insertKV l k v)) := by
  induction path generalizing doc with
  | nil =>
    unfold getPath at h
    cases h
    exact ⟨.dict (insertKV l k v), by simp [setAtPath, setItem], by simp [getPath]⟩
  | cons p ps ih =>
    unfold getPath at h
    split at h
    · exact Except.noConfusion h
    next sub hg =>
      obtain ⟨sub2, hs2, hread⟩ := ih h
      obtain ⟨m, rfl, hm⟩ := getItem_inv hg
      refine ⟨.dict (insertKV m p sub2), ?_, ?_⟩
      · simp only [setAtPath, hg, hs2, setItem]
      · simp only [getPath, getItem, lookup_insertKV_self]
        exact hread

/-- Updating below one top-level key leaves the other top-level keys of the
document untouched. -/
theorem setAtPath_frame {doc d2 : PyVal} {p : String} {ps : List String}
    {k : String} {v : PyVal} (h : setAtPath doc (p :: ps) k v = .ok d2)
    {q : String} (hq : q ≠ p) : getItem d2 q = getItem doc q := by
  unfold setAtPath at h
  split at h
  · exact Except.noConfusion h
  next sub hg =>
    split at h
    · exact Except.noConfusion h
    next sub2 hs =>
      obtain ⟨m, rfl, hm⟩ := getItem_inv hg
      obtain ⟨m2, hm2, rfl⟩ := setItem_inv h
      cases hm2
      simp only [getItem, lookup_insertKV_ne _ _ _ _ hq]

/-! ## Lemmas about save_digital_twin -/

/-- `save_digital_twin` only ever writes below the top-level keys
`_metadata` and `attributes`, whether it succeeds or fails. -/
theorem save_frame {doc : PyVal} {nowM : String} {q : String}
    (h1 : q ≠ "_metadata") (h2 : q ≠ "attributes") :
    getItem (save_digital_twin doc nowM).1 q = getItem doc q := by
  unfold save_digital_twin
  split
  · rfl
  next d1 hset1 =>
    have f1 : getItem d1 q = getItem doc q := setAtPath_frame hset1 h1
    split
    · exact f1
    next md hmd =>
      split
      · exact f1
      next rv hrv =>
        split
        · exact f1
        next rv2 hadd =>
          split
          · exact f1
          next d2 hset2 =>
            have f2 : getItem d2 q = getItem doc q :=
              (setAtPath_frame hset2 h1).trans f1
            split
            · exact f2
            next md2 hmd2 =>
              split
              · exact f2
              next mv hmv =>
                split
                · exact f2
                next d3 hset3 =>
                  exact (setAtPath_frame hset3 h2).trans f2

theorem save_frame_path {doc : PyVal} {nowM : String} {q : String} (qs : List String)
    (h1 : q ≠ "_metadata") (h2 : q ≠ "attributes") :
    getPath (save_digital_twin doc nowM).1 (q :: qs) = getPath doc (q :: qs) :=
  getPath_cons_congr qs (save_frame h1 h2)

theorem save_getPath_status (doc : PyVal) (nowM : String) :
    getPath (save_digital_twin doc nowM).1 statusPathKeys = getPath doc statusPathKeys := by
  rw [show statusPathKeys = "features" :: ["horn", "properties", "status"] from rfl]
  exact save_frame_path _ (by decide) (by decide)

/-- `save_digital_twin` never touches the horn status record. -/
theorem save_statusField (doc : PyVal) (nowM : String) (k : String) :
    statusField (save_digital_twin doc nowM).1 k = statusField doc k := by
  unfold statusField
  rw [save_getPath_status]

theorem save_countView (doc : PyVal) (nowM : String) :
    countView (save_digital_twin doc nowM).1 = countView doc := by
  unfold countView
  rw [save_getPath_status]

/-- Successful save: with a well-formed `_metadata` record and an
`attributes.metadata` dict present, `save_digital_twin` succeeds, stamps
the new timestamp, bumps the revision by one, mirrors the timestamp into
`attributes.metadata.lastModified`, and leaves the horn status path
untouched. -/
theorem save_ok {doc : PyVal} {md am : List (String × PyVal)} {r : Int} (nowM : String)
    (hmd : getItem doc "_metadata" = .ok (.dict md))
    (hr : (lookup md "_revision").getD (.int 1) = .int r)
    (ham : getPath doc ["attributes", "metadata"] = .ok (.dict am)) :
    ∃ d4,
      save_digital_twin doc nowM = (d4, true) ∧
      getPath d4 statusPathKeys = getPath doc statusPathKeys ∧
      getItem d4 "_metadata" =
        .ok (.dict (insertKV (insertKV md "modified" (.str nowM))
          "_revision" (.int (r + 1)))) ∧
      getPath d4 ["attributes", "metadata"] =
        .ok (.dict (insertKV am "lastModified" (.str nowM))) := by
  have hpm : getPath doc ["_metadata"] = .ok (.dict md) :=
    (getPath_singleton doc "_metadata").trans hmd
  obtain ⟨d1, hset1, hread1⟩ := setAtPath_of_getPath "modified" (.str nowM) hpm
  have hmd1 : getItem d1 "_metadata" =
      .ok (.dict (insertKV md "modified" (.str nowM))) :=
    (getPath_singleton d1 "_metadata").symm.trans hread1
  have hg1 : dictGet (.dict (insertKV md "modified" (.str nowM)))
      "_revision" (.int 1) = .ok (.int r) := by
    simp only [dictGet,
      lookup_insertKV_ne _ _ _ _ (by decide : ("_revision" : String) ≠ "modified"), hr]
  obtain ⟨d2, hset2, hread2⟩ := setAtPath_of_getPath "_revision" (.int (r + 1)) hread1
  have hmd2 : getItem d2 "_metadata" =
      .ok (.dict (insertKV (insertKV md "modified" (.str nowM))
        "_revision" (.int (r + 1)))) :=
    (getPath_singleton d2 "_metadata").symm.trans hread2
  have hmod2 : getItem (.dict (insertKV (insertKV md "modified" (.str nowM))
      "_revision" (.int (r + 1)))) "modified" = .ok (.str nowM) := by
    simp only [getItem,
      lookup_insertKV_ne _ _ _ _ (by decide : ("modified" : String) ≠ "_revision"),
      lookup_insertKV_self]
  have e1 : getItem d1 "attributes" = getItem doc "attributes" :=
    setAtPath_frame hset1 (by decide)
  have e2 : getItem d2 "attributes" = getItem d1 "attributes" :=
    setAtPath_frame hset2 (by decide)
  have ham2 : getPath d2 ["attributes", "metadata"] = .ok (.dict am) :=
    (getPath_cons_congr _ (e2.trans e1)).trans ham
  obtain ⟨d4, hset3, hread3⟩ := setAtPath_of_getPath "lastModified" (.str nowM) ham2
  have s1 : getItem d1 "features" = getItem doc "features" :=
    setAtPath_frame hset1 (by decide)
  have s2 : getItem d2 "features" = getItem d1 "features" :=
    setAtPath_frame hset2 (by decide)
  have s3 : getItem d4 "features" = getItem d2 "features" :=
    setAtPath_frame hset3 (by decide)
  have m4 : getItem d4 "_metadata" = getItem d2 "_metadata" :=
    setAtPath_frame hset3 (by decide)
  refine ⟨d4, ?_, ?_, m4.trans hmd2, hread3⟩
  · simp only [save_digital_twin, hset1, hmd1, hg1, pyAdd, hset2, hmd2, hmod2, hset3]
  · rw [show statusPathKeys = "features" :: ["horn", "properties", "status"] from rfl]
    exact getPath_cons_congr _ (s3.trans (s2.trans s1))

/-! ## Lemmas about set_horn_status -/

theorem setAtPath_status_frame {doc d2 : PyVal} {k : String} {v : PyVal}
    (h : setAtPath doc statusPathKeys k v = .ok d2)
    {q : String} (hq : q ≠ "features") : getItem d2 q = getItem doc q := by
  rw [show statusPathKeys = "features" :: ["horn", "properties", "status"] from rfl] at h
  exact setAtPath_frame h hq

/-- The `"ON"` branch of `set_horn_status` reaches `save_digital_twin` on a
document whose status record has `state`, `lastActivated` and
`activationCount` freshly written, everything else untouched. -/
theorem set_on_split {doc : PyVal} {hp : List (String × PyVal)} {n : Int}
    (nowA nowM : String)
    (hhp : getPath doc statusPathKeys = .ok (.dict hp))
    (hn : (lookup hp "activationCount").getD (.int 0) = .int n) :
    ∃ d3,
      set_horn_status doc "ON" nowA nowM = save_digital_twin d3 nowM ∧
      getPath d3 statusPathKeys = .ok (.dict
        (insertKV (insertKV (insertKV hp "state" (.str "ON"))
          "lastActivated" (.str nowA)) "activationCount" (.int (n + 1)))) ∧
      (∀ q, q ≠ "features" → getItem d3 q = getItem doc q) := by
  obtain ⟨d1, hsetA, hreadA⟩ := setAtPath_of_getPath "state" (.str "ON") hhp
  obtain ⟨d2, hsetB, hreadB⟩ := setAtPath_of_getPath "lastActivated" (.str nowA) hreadA
  have hg : dictGet (.dict (insertKV (insertKV hp "state" (.str "ON"))
      "lastActivated" (.str nowA))) "activationCount" (.int 0) = .ok (.int n) := by
    simp only [dictGet,
      lookup_insertKV_ne _ _ _ _ (by decide : ("activationCount" : String) ≠ "lastActivated"),
      lookup_insertKV_ne _ _ _ _ (by decide : ("activationCount" : String) ≠ "state"), hn]
  obtain ⟨d3, hsetC, hreadC⟩ := setAtPath_of_getPath "activationCount" (.int (n + 1)) hreadB
  refine ⟨d3, ?_, hreadC, fun q hq =>
    ((setAtPath_status_frame hsetC hq).trans (setAtPath_status_frame hsetB hq)).trans
      (setAtPath_status_frame hsetA hq)⟩
  simp only [set_horn_status, hhp, hsetA, if_pos (rfl : ("ON" : String) = "ON"),
    if_true, hsetB, hreadB, hg, pyAdd, hsetC]

/-- Any call of `set_horn_status` with a status other than `"ON"` reaches
`save_digital_twin` on a document where only the `state` field of the
status record was written. -/
theorem set_ne_on_split {doc : PyVal} {hp : List (String × PyVal)} {s : String}
    (hs : s ≠ "ON") (nowA nowM : String)
    (hhp : getPath doc statusPathKeys = .ok (.dict hp)) :
    ∃ d1,
      set_horn_status doc s nowA nowM = save_digital_twin d1 nowM ∧
      getPath d1 statusPathKeys = .ok (.dict (insertKV hp "state" (.str s))) ∧
      (∀ q, q ≠ "features" → getItem d1 q = getItem doc q) := by
  obtain ⟨d1, hsetA, hreadA⟩ := setAtPath_of_getPath "state" (.str s) hhp
  refine ⟨d1, ?_, hreadA, fun q hq => setAtPath_status_frame hsetA hq⟩
  simp only [set_horn_status, hhp, hsetA, if_neg hs]

/-- `set_horn_status` applied with `"OFF"` leaves every status field other
than `state` untouched, on arbitrary documents (including malformed ones,
and including the runs in which the save step fails). -/
theorem set_off_statusField (doc : PyVal) (nowA nowM k : String) (hk : k ≠ "state") :
    statusField (set_horn_status doc "OFF" nowA nowM).1 k = statusField doc k := by
  cases hset : setAtPath doc statusPathKeys "state" (.str "OFF") with
  | error e =>
    cases hgp : getPath doc statusPathKeys with
    | error e2 => simp only [set_horn_status, hgp]
    | ok v => simp only [set_horn_status, hgp, hset]
  | ok d1 =>
    obtain ⟨l, hl, hl2⟩ := setAtPath_ok hset
    have hrun : set_horn_status doc "OFF" nowA nowM = save_digital_twin d1 nowM := by
      simp only [set_horn_status, hl, hset, if_neg (by decide : ¬ ("OFF" : String) = "ON")]
    rw [hrun, save_statusField]
    unfold statusField
    rw [hl2, hl]
    dsimp only
    rw [lookup_insertKV_ne _ _ _ _ hk]

/-- The activation counter after any `set_horn_status` call: plus one for
an `"ON"` request, unchanged otherwise — independent of the current
`state` value and of whether the save step succeeds. -/
theorem set_countView {doc : PyVal} {n : Int} (s nowA nowM : String)
    (hn : countView doc = some (.int n)) :
    countView (set_horn_status doc s nowA nowM).1 =
      some (.int (if s = "ON" then n + 1 else n)) := by
  unfold countView at hn
  split at hn
  next l hgp =>
    have hn2 : (lookup l "activationCount").getD (.int 0) = .int n :=
      Option.some.inj hn
    by_cases hON : s = "ON"
    · subst hON
      obtain ⟨d3, hrun, hread, hfr⟩ := set_on_split nowA nowM hgp hn2
      rw [hrun, save_countView]
      unfold countView
      rw [hread]
      dsimp only
      rw [lookup_insertKV_self]
      simp
    · obtain ⟨d1, hrun, hread, hfr⟩ := set_ne_on_split hON nowA nowM hgp
      rw [hrun, save_countView]
      unfold countView
      rw [hread]
      dsimp only
      rw [lookup_insertKV_ne _ _ _ _
        (show ("activationCount" : String) ≠ "state" by decide), hn2, if_neg hON]
  next hne =>
    exact absurd hn (by simp)

/-! ## Lemma about KeyError-only navigation -/

theorem getPath_of_missingOn {doc : PyVal} {path : List String}
    (h : missingOn doc path = true) : getPath doc path = .error .keyError := by
  induction path generalizing doc with
  | nil => cases doc <;> exact Bool.noConfusion h
  | cons p ps ih =>
    cases doc with
    | dict l =>
      cases hl : lookup l p with
      | none => simp [getPath, getItem, hl]
      | some v =>
        have h2 : missingOn v ps = true := by
          unfold missingOn at h
          rw [hl] at h
          exact h
        simp only [getPath, getItem, hl]
        exact ih h2
    | str s => exact Bool.noConfusion h
    | int i => exact Bool.noConfusion h
    | bool b => exact Bool.noConfusion h
    | arr a => exact Bool.noConfusion h
    | none => exact Bool.noConfusion h

/-! ## Claim theorems: the twin store -/

/-- Shape facts about a live twin document that `set_horn_status`
preserves: a dict status record whose counter reads `n`, a dict
`_metadata` record whose revision reads `r`, and a dict
`attributes.metadata` record. -/
def WFtwin (doc : PyVal) (n r : Int) : Prop :=
  (∃ hp, getPath doc statusPathKeys = Except.ok (.dict hp) ∧
    (lookup hp "activationCount").getD (.int 0) = .int n) ∧
  (∃ md, getItem doc "_metadata" = Except.ok (.dict md) ∧
    (lookup md "_revision").getD (.int 1) = .int r) ∧
  (∃ am, getPath doc ["attributes", "metadata"] = Except.ok (.dict am))

/-- Claim C3: every `set_horn_status("ON")` call on a well-formed twin
document succeeds and increases `activationCount` by exactly 1,
regardless of the prior `state` value; well-formedness is preserved, so
along any sequence of such calls each call adds exactly 1. -/
theorem C3_on_increments (doc : PyVal) (n r : Int) (nowA nowM : String)
    (hwf : WFtwin doc n r) :
    (set_horn_status doc "ON" nowA nowM).2 = true ∧
    countView (set_horn_status doc "ON" nowA nowM).1 = some (.int (n + 1)) ∧
    WFtwin (set_horn_status doc "ON" nowA nowM).1 (n + 1) (r + 1) := by
  obtain ⟨⟨hp, hhp, hn⟩, ⟨md, hmd, hr⟩, ⟨am, ham⟩⟩ := hwf
  obtain ⟨d3, hrun, hread, hfr⟩ := set_on_split nowA nowM hhp hn
  have hmd3 : getItem d3 "_metadata" = .ok (.dict md) :=
    (hfr _ (by decide)).trans hmd
  have ham3 : getPath d3 ["attributes", "metadata"] = .ok (.dict am) :=
    (getPath_cons_congr _ (hfr _ (by decide))).trans ham
  obtain ⟨d4, hsave, hstat4, hmd4, ham4⟩ := save_ok nowM hmd3 hr ham3
  rw [hrun, hsave]
  refine ⟨rfl, ?_, ⟨?_, ?_, ?_⟩⟩
  · unfold countView
    rw [hstat4, hread]
    dsimp only
    rw [lookup_insertKV_self]
    rfl
  · refine ⟨_, hstat4.trans hread, ?_⟩
    rw [lookup_insertKV_self]
    rfl
  · refine ⟨_, hmd4, ?_⟩
    rw [lookup_insertKV_self]
    rfl
  · exact ⟨_, ham4⟩

theorem C3_on_increments_witness :
    WFtwin goodDocOFF 5 3 ∧
    (set_horn_status goodDocOFF "ON" "t2" "t3").2 = true ∧
    countView (set_horn_status goodDocOFF "ON" "t2" "t3").1 = some (.int 6) :=
  have hwf : WFtwin goodDocOFF 5 3 :=
    ⟨⟨statusGood "OFF" 5, rfl, rfl⟩,
     ⟨[("modified", .str "t0"), ("_revision", .int 3)], rfl, rfl⟩,
     ⟨[("manufacturer", .str "SmartCar"), ("lastModified", .str "t0")], rfl⟩⟩
  ⟨hwf, (C3_on_increments goodDocOFF 5 3 "t2" "t3" hwf).1,
    (C3_on_increments goodDocOFF 5 3 "t2" "t3" hwf).2.1⟩

/-- Claim C4 counterexample: a `set_horn_status("ON")` call whose prior
state is already ON still increments `activationCount` (5 becomes 6), so
the counter does not increment only on OFF-to-ON transitions. -/
theorem C4_counterexample :
    statusField goodDocON "state" = some (.str "ON") ∧
    countView goodDocON = some (.int 5) ∧
    (set_horn_status goodDocON "ON" "t2" "t3").2 = true ∧
    countView (set_horn_status goodDocON "ON" "t2" "t3").1 = some (.int 6) :=
  ⟨rfl, rfl, rfl, rfl⟩

/-- Claim C4 (amended): `activationCount` is monotonically non-decreasing
across every `set_horn_status` call, and it increments by exactly 1 on
every `"ON"` call — regardless of the prior state, including ON to ON —
and stays unchanged on every other call. -/
theorem C4_amended (doc : PyVal) (s nowA nowM : String) (n : Int)
    (hn : countView doc = some (.int n)) :
    countView (set_horn_status doc s nowA nowM).1 =
      some (.int (if s = "ON" then n + 1 else n)) ∧
    n ≤ (if s = "ON" then n + 1 else n) :=
  ⟨set_countView s nowA nowM hn, by split <;> omega⟩

theorem C4_amended_witness :
    countView goodDocON = some (.int 5) ∧
    countView (set_horn_status goodDocON "OFF" "t2" "t3").1 = some (.int 5) :=
  ⟨rfl, (C4_amended goodDocON "OFF" "t2" "t3" 5 rfl).1⟩

/-- Claim C5: a `set_horn_status("OFF")` call never modifies
`activationCount` or `lastActivated`; among the status fields it touches
only `state`.  This holds for every document, including runs in which
the save step fails. -/
theorem C5_off_frame (doc : PyVal) (nowA nowM : String) :
    statusField (set_horn_status doc "OFF" nowA nowM).1 "activationCount" =
      statusField doc "activationCount" ∧
    statusField (set_horn_status doc "OFF" nowA nowM).1 "lastActivated" =
      statusField doc "lastActivated" ∧
    (∀ k, k ≠ "state" →
      statusField (set_horn_status doc "OFF" nowA nowM).1 k = statusField doc k) :=
  ⟨set_off_statusField doc nowA nowM _ (by decide),
   set_off_statusField doc nowA nowM _ (by decide),
   fun k hk => set_off_statusField doc nowA nowM k hk⟩

theorem C5_off_frame_witness :
    statusField (set_horn_status goodDocON "OFF" "t2" "t3").1 "activationCount" =
      statusField goodDocON "activationCount" ∧
    ("lastActivated" : String) ≠ "state" ∧
    statusField (set_horn_status goodDocON "OFF" "t2" "t3").1 "lastActivated" =
      statusField goodDocON "lastActivated" :=
  ⟨(C5_off_frame goodDocON "t2" "t3").1, by decide,
   (C5_off_frame goodDocON "t2" "t3").2.2 "lastActivated" (by decide)⟩

/-- Claim C7 counterexample: on a document whose `features` entry has an
unexpected shape (a string), `get_horn_status` does not return UNKNOWN
but raises an uncaught `TypeError` to the caller — only `KeyError` is
caught. -/
theorem C7_counterexample :
    get_horn_status badShapeDoc = .error .typeError := rfl

/-- Claim C7 (amended): `get_horn_status` returns UNKNOWN whenever the
record or nested fields are absent (navigation reaches a dict missing
the next key, the `KeyError` case); but when an intermediate field has a
non-dict shape the resulting `TypeError` is not caught and propagates to
the caller. -/
theorem C7_amended (doc : PyVal)
    (h : missingOn doc ["features", "horn", "properties", "status", "state"] = true) :
    get_horn_status doc = .ok (.str "UNKNOWN") := by
  unfold get_horn_status
  rw [show statusPathKeys ++ ["state"] =
    ["features", "horn", "properties", "status", "state"] from rfl,
    getPath_of_missingOn h]

theorem C7_amended_witness :
    missingOn emptyDoc ["features", "horn", "properties", "status", "state"] = true ∧
    get_horn_status emptyDoc = .ok (.str "UNKNOWN") :=
  ⟨rfl, C7_amended emptyDoc rfl⟩

/-- Claim C10: `set_horn_status` is not atomic on failure.  Whenever the
status record is intact but the call fails (the persistence step
failed), the in-memory document has nevertheless been mutated: `state`
holds the requested `"ON"`, `lastActivated` has been overwritten, and
`activationCount` has been incremented. -/
theorem C10_mutation_on_failed_save (doc : PyVal) (hp : List (String × PyVal))
    (n : Int) (nowA nowM : String)
    (hhp : getPath doc statusPathKeys = .ok (.dict hp))
    (hn : (lookup hp "activationCount").getD (.int 0) = .int n)
    (_hfail : (set_horn_status doc "ON" nowA nowM).2 = false) :
    statusField (set_horn_status doc "ON" nowA nowM).1 "state" = some (.str "ON") ∧
    statusField (set_horn_status doc "ON" nowA nowM).1 "lastActivated" = some (.str nowA) ∧
    countView (set_horn_status doc "ON" nowA nowM).1 = some (.int (n + 1)) := by
  obtain ⟨d3, hrun, hread, hfr⟩ := set_on_split nowA nowM hhp hn
  rw [hrun]
  refine ⟨?_, ?_, ?_⟩
  · rw [save_statusField]
    unfold statusField
    rw [hread]
    dsimp only
    rw [lookup_insertKV_ne _ _ _ _ (by decide : ("state" : String) ≠ "activationCount"),
      lookup_insertKV_ne _ _ _ _ (by decide : ("state" : String) ≠ "lastActivated"),
      lookup_insertKV_self]
  · rw [save_statusField]
    unfold statusField
    rw [hread]
    dsimp only
    rw [lookup_insertKV_ne _ _ _ _
        (by decide : ("lastActivated" : String) ≠ "activationCount"),
      lookup_insertKV_self]
  · rw [save_countView]
    unfold countView
    rw [hread]
    dsimp only
    rw [lookup_insertKV_self]
    rfl

theorem C10_mutation_on_failed_save_witness :
    (set_horn_status noMetaDoc "ON" "t2" "t3").2 = false ∧
    statusField (set_horn_status noMetaDoc "ON" "t2" "t3").1 "state" = some (.str "ON") ∧
    countView (set_horn_status noMetaDoc "ON" "t2" "t3").1 = some (.int 6) :=
  ⟨rfl,
   (C10_mutation_on_failed_save noMetaDoc (statusGood "OFF" 5) 5 "t2" "t3" rfl rfl rfl).1,
   (C10_mutation_on_failed_save noMetaDoc (statusGood "OFF" 5) 5 "t2" "t3" rfl rfl rfl).2.2⟩

/-- Reading the three markers after a successful `save_digital_twin`. -/
theorem views_of_save_ok {d3 d2 : PyVal} {md am : List (String × PyVal)}
    {r : Int} {nowM : String}
    (hmd3 : getItem d3 "_metadata" = .ok (.dict md))
    (hr : (lookup md "_revision").getD (.int 1) = .int r)
    (ham3 : getPath d3 ["attributes", "metadata"] = .ok (.dict am))
    (hrun : save_digital_twin d3 nowM = (d2, true)) :
    modifiedView d2 = some (.str nowM) ∧
    revisionView d2 = some (.int (r + 1)) ∧
    attrLastModifiedView d2 = some (.str nowM) := by
  obtain ⟨d4, hsave, hstat4, hmd4, ham4⟩ := save_ok nowM hmd3 hr ham3
  have hd : d4 = d2 := congrArg Prod.fst (hsave.symm.trans hrun)
  subst hd
  refine ⟨?_, ?_, ?_⟩
  · unfold modifiedView
    rw [hmd4]
    dsimp only
    rw [lookup_insertKV_ne _ _ _ _ (by decide : ("modified" : String) ≠ "_revision"),
      lookup_insertKV_self]
  · unfold revisionView
    rw [hmd4]
    dsimp only
    rw [lookup_insertKV_self]
    rfl
  · unfold attrLastModifiedView
    rw [ham4]
    dsimp only
    rw [lookup_insertKV_self]

/-- Claim C8: every successful `set_horn_status` call — for any requested
status, in particular also when it rewrites the value already stored —
updates the `lastModified` timestamps and increments the `_revision`
marker by one; no-op writes are not suppressed. -/
theorem C8_markers_on_success (doc d2 : PyVal) (s nowA nowM : String)
    (md am : List (String × PyVal)) (r : Int)
    (hrun : set_horn_status doc s nowA nowM = (d2, true))
    (hmd : getItem doc "_metadata" = .ok (.dict md))
    (hr : (lookup md "_revision").getD (.int 1) = .int r)
    (ham : getPath doc ["attributes", "metadata"] = .ok (.dict am)) :
    modifiedView d2 = some (.str nowM) ∧
    revisionView d2 = some (.int (r + 1)) ∧
    attrLastModifiedView d2 = some (.str nowM) := by
  unfold set_horn_status at hrun
  split at hrun
  · simp at hrun
  next v hgp =>
    split at hrun
    · simp at hrun
    next d1 hsetA =>
      have hmd1 : getItem d1 "_metadata" = .ok (.dict md) :=
        (setAtPath_status_frame hsetA (by decide)).trans hmd
      have ham1 : getPath d1 ["attributes", "metadata"] = .ok (.dict am) :=
        (getPath_cons_congr _ (setAtPath_status_frame hsetA (by decide))).trans ham
      split at hrun
      · split at hrun
        · simp at hrun
        next d2a hsetB =>
          have hmd2a : getItem d2a "_metadata" = .ok (.dict md) :=
            (setAtPath_status_frame hsetB (by decide)).trans hmd1
          have ham2a : getPath d2a ["attributes", "metadata"] = .ok (.dict am) :=
            (getPath_cons_congr _ (setAtPath_status_frame hsetB (by decide))).trans ham1
          split at hrun
          · simp at hrun
          next hp2 hgp2 =>
            split at hrun
            · simp at hrun
            next cv hcv =>
              split at hrun
              · simp at hrun
              next cv2 hadd =>
                split at hrun
                · simp at hrun
                next d3 hsetC =>
                  have hmd3 : getItem d3 "_metadata" = .ok (.dict md) :=
                    (setAtPath_status_frame hsetC (by decide)).trans hmd2a
                  have ham3 : getPath d3 ["attributes", "metadata"] = .ok (.dict am) :=
                    (getPath_cons_congr _
                      (setAtPath_status_frame hsetC (by decide))).trans ham2a
                  exact views_of_save_ok hmd3 hr ham3 hrun
      · exact views_of_save_ok hmd1 hr ham1 hrun

theorem C8_markers_on_success_witness :
    statusField goodDocOFF "state" = some (.str "OFF") ∧
    modifiedView (set_horn_status goodDocOFF "OFF" "t2" "t3").1 = some (.str "t3") ∧
    revisionView (set_horn_status goodDocOFF "OFF" "t2" "t3").1 = some (.int 4) :=
  ⟨rfl,
   (C8_markers_on_success goodDocOFF (set_horn_status goodDocOFF "OFF" "t2" "t3").1
     "OFF" "t2" "t3" [("modified", .str "t0"), ("_revision", .int 3)]
     [("manufacturer", .str "SmartCar"), ("lastModified", .str "t0")] 3
     rfl rfl rfl rfl).1,
   (C8_markers_on_success goodDocOFF (set_horn_status goodDocOFF "OFF" "t2" "t3").1
     "OFF" "t2" "t3" [("modified", .str "t0"), ("_revision", .int 3)]
     [("manufacturer", .str "SmartCar"), ("lastModified", .str "t0")] 3
     rfl rfl rfl rfl).2.1⟩

/-! ## Claim theorems: the synchronizer -/

/-- Claim C1 counterexample: a reconcile tick that runs while the twin
state reads UNKNOWN (empty document) returns without error, yet
afterwards the tracked hardware state (rendered OFF) does not equal the
twin state. -/
theorem C1_counterexample :
    auto_sync_tick envOK cUnk = some cUnkAfter ∧
    get_horn_status cUnkAfter.twin = .ok (.str "UNKNOWN") ∧
    hwStr cUnkAfter.hardware_horn_state = "OFF" ∧
    PyVal.str "UNKNOWN" ≠ PyVal.str "OFF" :=
  ⟨rfl, rfl, rfl, by intro h; injection h with h2; exact absurd h2 (by decide)⟩

/-- Claim C1 (amended): after an auto-sync tick returns without error the
tracked hardware state equals the twin state, provided the twin state
read ON or OFF; and in the scenario twin ON, hardware observed OFF, the
tick issues exactly one send of the byte 1 and the tracked state becomes
ON.  When the twin state reads any other value (such as UNKNOWN) the
tick instead forces the tracked state to OFF, which differs from the
twin state. -/
theorem C1_amended (env : Nat → Bool) (c c2 : Ctrl) (v : PyVal)
    (hconn : c.connected = true)
    (htick : auto_sync_tick env c = some c2)
    (hget : get_horn_status c.twin = .ok v) :
    ((v = .str "ON" ∨ v = .str "OFF") →
      v = .str (hwStr c2.hardware_horn_state)) ∧
    (v = .str "ON" → c.hardware_horn_state = false →
      c2.sent = c.sent ++ ['1'] ∧ c2.hardware_horn_state = true ∧
        c2.twin = c.twin) := by
  unfold auto_sync_tick at htick
  rw [hget] at htick
  dsimp only at htick
  cases he : PyVal.eqStr v (hwStr c.hardware_horn_state) with
  | true =>
    simp only [he, if_true] at htick
    obtain rfl : c = c2 := Option.some.inj htick
    constructor
    · rintro (rfl | rfl) <;>
        (unfold PyVal.eqStr at he; rw [eq_of_beq he])
    · rintro rfl hhw
      rw [hhw] at he
      simp [PyVal.eqStr, hwStr] at he
  | false =>
    simp only [he, Bool.false_eq_true, if_false] at htick
    cases hon : PyVal.eqStr v "ON" with
    | true =>
      simp only [hon, if_true] at htick
      obtain rfl := Option.some.inj htick
      constructor
      · rintro (rfl | rfl)
        · rfl
        · simp [PyVal.eqStr] at hon
      · rintro rfl hhw
        refine ⟨?_, rfl, ?_⟩ <;> simp [send_command, hconn]
    | false =>
      simp only [hon, Bool.false_eq_true, if_false] at htick
      obtain rfl := Option.some.inj htick
      constructor
      · rintro (rfl | rfl)
        · simp [PyVal.eqStr] at hon
        · rfl
      · rintro rfl hhw
        simp [PyVal.eqStr] at hon

theorem C1_amended_witness :
    get_horn_status cStale.twin = Except.ok (PyVal.str "ON") ∧
    cStaleAfter.sent = cStale.sent ++ ['1'] ∧
    cStaleAfter.hardware_horn_state = true :=
  ⟨rfl,
   ((C1_amended envOK cStale cStaleAfter (.str "ON") rfl rfl rfl).2 rfl rfl).1,
   ((C1_amended envOK cStale cStaleAfter (.str "ON") rfl rfl rfl).2 rfl rfl).2.1⟩

/-- A reconcile tick on an already synchronized state changes nothing and
sends nothing. -/
theorem tick_no_change {env : Nat → Bool} {c : Ctrl}
    (hget : get_horn_status c.twin = .ok (.str (hwStr c.hardware_horn_state))) :
    auto_sync_tick env c = some c := by
  unfold auto_sync_tick
  rw [hget]
  simp [PyVal.eqStr]

/-- Claim C2 counterexample: with the twin and the tracked hardware state
both OFF (already synchronized), the manual Sync DT to Hardware action
still issues one send of the byte 0. -/
theorem C2_counterexample :
    get_horn_status cSync.twin = .ok (.str "OFF") ∧
    hwStr cSync.hardware_horn_state = "OFF" ∧
    sync_dt_to_hardware envOK cSync =
      .ok { twin := goodDocOFF, connected := true,
            hardware_horn_state := false, sent := ['0'] } :=
  ⟨rfl, rfl, rfl⟩

/-- Claim C2 (amended): when the twin state equals the rendered hardware
state, any number of consecutive auto-sync ticks (in particular 10)
leaves the state unchanged and issues zero sends; the manual Sync DT to
Hardware action, however, always issues exactly one send of the
twin-derived command byte, even when already synchronized. -/
theorem C2_amended (env : Nat → Bool) (c : Ctrl) (n : Nat)
    (hconn : c.connected = true)
    (hget : get_horn_status c.twin = .ok (.str (hwStr c.hardware_horn_state))) :
    auto_sync_ticks env n c = some c ∧
    Except.map Ctrl.sent (sync_dt_to_hardware env c) =
      .ok (c.sent ++ [if c.hardware_horn_state then '1' else '0']) := by
  constructor
  · induction n with
    | zero => rfl
    | succ m ih =>
      unfold auto_sync_ticks
      rw [tick_no_change hget]
      exact ih
  · cases hw : c.hardware_horn_state <;>
      rw [hw] at hget <;>
      cases henv : env c.sent.length <;>
        simp [sync_dt_to_hardware, hconn, hget, hw, henv, PyVal.eqStr, hwStr,
          send_command, Except.map]

theorem C2_amended_witness :
    get_horn_status cSync.twin = .ok (.str (hwStr cSync.hardware_horn_state)) ∧
    auto_sync_ticks envOK 10 cSync = some cSync :=
  ⟨rfl, (C2_amended envOK cSync 10 rfl rfl).1⟩

/-- Claim C6 counterexample: an auto-sync tick whose send fails (the
channel write errors) nevertheless records the commanded value as the
observed hardware state: it changes from OFF to ON although no byte got
through. -/
theorem C6_counterexample :
    envFail 0 = false ∧
    cStale.hardware_horn_state = false ∧
    auto_sync_tick envFail cStale = some cStaleAfter ∧
    cStaleAfter.hardware_horn_state = true ∧
    cStaleAfter.sent = cStale.sent ++ ['1'] :=
  ⟨rfl, rfl, rfl, rfl, rfl⟩

/-- The document produced by turning the horn ON in the OFF document. -/
def dOn : PyVal := (set_horn_status goodDocOFF "ON" "t2" "t3").1

/-- Claim C6 (amended): after a successful send the tracked hardware state
equals the commanded value in every operation.  After a failed send it
is left unchanged by the manual sync and by the DT activate operation —
but an auto-sync tick records the twin-derived value regardless of
whether the send succeeded. -/
theorem C6_amended (env : Nat → Bool) (c : Ctrl) (v d1 : PyVal) (nowA nowM : String)
    (hconn : c.connected = true)
    (hget : get_horn_status c.twin = .ok v)
    (hset : set_horn_status c.twin "ON" nowA nowM = (d1, true)) :
    (sync_dt_to_hardware env c = .ok (
      if env c.sent.length then
        { c with sent := c.sent ++ [if v.eqStr "ON" then '1' else '0'],
                 hardware_horn_state := v.eqStr "ON" }
      else { c with sent := c.sent ++ [if v.eqStr "ON" then '1' else '0'] })) ∧
    (activate_horn_dt_only env nowA nowM c =
      (if env c.sent.length then
        { c with twin := d1, sent := c.sent ++ ['1'], hardware_horn_state := true }
      else { c with twin := d1, sent := c.sent ++ ['1'] }, PyVal.none)) ∧
    (v.eqStr (hwStr c.hardware_horn_state) = false →
      auto_sync_tick env c = some
        { c with sent := c.sent ++ [if v.eqStr "ON" then '1' else '0'],
                 hardware_horn_state := v.eqStr "ON" }) := by
  refine ⟨?_, ?_, ?_⟩
  · cases hv : PyVal.eqStr v "ON" <;>
      cases henv : env c.sent.length <;>
        simp [sync_dt_to_hardware, hconn, hget, hv, henv, send_command]
  · cases henv : env c.sent.length <;>
      simp [activate_horn_dt_only, hset, hconn, henv, send_command]
  · intro hne
    cases hv : PyVal.eqStr v "ON" <;>
      simp [auto_sync_tick, hget, hne, hv, hconn, send_command]

theorem C6_amended_witness :
    cMis.connected = true ∧
    auto_sync_tick envOK cMis = some
      { twin := goodDocOFF, connected := true,
        hardware_horn_state := false, sent := ['0'] } :=
  ⟨rfl, (C6_amended envOK cMis (.str "OFF") dOn "t2" "t3" rfl rfl rfl).2.2 rfl⟩

/-- The value `activate_horn_dt_only` hands back to its caller is the
Python `None`, on every path. -/
theorem activate_ret (env : Nat → Bool) (nowA nowM : String) (c : Ctrl) :
    (activate_horn_dt_only env nowA nowM c).2 = PyVal.none := by
  unfold activate_horn_dt_only
  dsimp only
  split
  · split
    · split <;> rfl
    · rfl
  · rfl

/-- Claim C9 (amended): the synchronizer operations do not report a
tri-state outcome to their callers: `set_horn_status` and `send_command`
return bare booleans and the GUI-level operation `activate_horn_dt_only`
returns `None`, a value independent of whether the hardware push
succeeded; partial success is surfaced only in the activity log. -/
theorem C9_amended (env1 env2 : Nat → Bool) (nowA nowM : String) (c : Ctrl) :
    (activate_horn_dt_only env1 nowA nowM c).2 =
      (activate_horn_dt_only env2 nowA nowM c).2 :=
  (activate_ret env1 nowA nowM c).trans (activate_ret env2 nowA nowM c).symm

/-- Claim C9 counterexample: a full-success run of
`activate_horn_dt_only` (store written, byte delivered) and a
partial-success run (store written, channel write failed, hardware now
stale) return the identical value to the caller, so the operation does
not return a tri-state outcome; the two runs are nevertheless
observably different. -/
theorem C9_counterexample :
    (activate_horn_dt_only envOK "t2" "t3" cSync).2 =
      (activate_horn_dt_only envFail "t2" "t3" cSync).2 ∧
    (activate_horn_dt_only envOK "t2" "t3" cSync).1.hardware_horn_state = true ∧
    (activate_horn_dt_only envFail "t2" "t3" cSync).1.hardware_horn_state = false ∧
    (activate_horn_dt_only envFail "t2" "t3" cSync).1.sent = ['1'] ∧
    (set_horn_status goodDocOFF "ON" "t2" "t3").2 = true :=
  ⟨rfl, rfl, rfl, rfl, rfl⟩
